import Mathlib

/-!
Shallow embedding of the active-fin control core of the R_SIM repository.

Python floats are modelled as exact rationals (`ℚ`); Python dicts keyed by
fin id are modelled as association lists keyed by `Nat`; mutable objects
(`OpenFOAMDataExtractor`, `ActiveFinControlManager`, `FinGeometryManager`)
become explicit state records threaded through the functions that the
Python methods mutate.  A `try/except` whose body can only fail at an
explicit point (a missing dict key, an out-of-range list index) is modelled
by matching on the corresponding `Option` with the `except` branch as the
fall-through case.  The external scipy rotation (`R.from_rotvec(...)`)
is an orthogonal-matrix oracle and is taken as an abstract parameter
`rotApply : axis → angleDeg → vector → vector`.
-/

set_option autoImplicit false

namespace RSim

/-- A 3-component vector of rationals, modelling a Python 3-element list of
floats such as a force, moment, attitude or position triple. -/
structure V3 where
  x : ℚ
  y : ℚ
  z : ℚ
  deriving DecidableEq, Repr

/-- Componentwise vector addition, modelling `mesh.vertices += attachment_point`. -/
def vadd (a b : V3) : V3 := ⟨a.x + b.x, a.y + b.y, a.z + b.z⟩

/-- Componentwise vector subtraction, modelling `mesh.vertices -= attachment_point`. -/
def vsub (a b : V3) : V3 := ⟨a.x - b.x, a.y - b.y, a.z - b.z⟩

/-- The zero vector, the `[0, 0, 0]` default used throughout the extractor. -/
def v3zero : V3 := ⟨0, 0, 0⟩

/-! ## ControlScriptSandbox / ActuationLimiter
    from `ActiveFinControlManager.execute_control_algorithm`
    (`f_backend_clean.py`, lines 261-303). -/

/-- The dataclass `FinDeflections(timestamp, fin1, fin2, fin3, fin4)`. -/
structure FinDeflections where
  timestamp : ℚ
  fin1 : ℚ
  fin2 : ℚ
  fin3 : ℚ
  fin4 : ℚ
  deriving DecidableEq, Repr

/-- Outcome of running the user-supplied JavaScript through `js2py`:
either some step of `eval` / `calculateFinDeflections` raised (source fails
to parse, the function is absent, the function throws, a non-list or
non-numeric result), or the call returned a list of numeric values. -/
inductive SandboxOutcome where
  | throws
  | returns (vals : List ℚ)
  deriving DecidableEq, Repr

/-- One iteration of the clamping loop in `execute_control_algorithm`:
`max(-limit, min(limit, deflection))`. -/
def clampDeflection (limit d : ℚ) : ℚ := max (-limit) (min limit d)

/-- `ActiveFinControlManager.execute_control_algorithm`, lines 261-303.
The whole body sits in a `try`; on any exception it returns
`FinDeflections(time.time(), 0, 0, 0, 0)`.  After a successful sandbox
call every returned value is clamped to `fin_deflection_limit`; the four
indexings `limited_deflections[0] .. [3]` succeed exactly when the list has
at least four elements, and an `IndexError` lands in the same `except`
branch, so the fall-through case of the match is the zero command. -/
def execute_control_algorithm (limit now : ℚ) (outcome : SandboxOutcome) :
    FinDeflections :=
  match outcome with
  | .throws => ⟨now, 0, 0, 0, 0⟩
  | .returns vals =>
    match vals.map (clampDeflection limit) with
    | a :: b :: c :: d :: _ => ⟨now, a, b, c, d⟩
    | _ => ⟨now, 0, 0, 0, 0⟩

/-! ## StateEstimator
    from `OpenFOAMDataExtractor` (`cfd_data_extractor.py`). -/

/-- `OpenFOAMDataExtractor.extract_forces_and_moments`, lines 23-54.
The file is modelled as `none` when `forces_file.exists()` is false and
otherwise as the list of its lines, each already whitespace-split with each
token parsed as a number.  The code checks `len(data) >= 6` and then reads
`data[1] .. data[6]`; when the last row has exactly six tokens the read of
`data[6]` raises `IndexError` and the surrounding `except` returns the
zero default, which the fall-through match arm models. -/
def extract_forces_and_moments (file : Option (List (List ℚ))) : V3 × V3 :=
  match file with
  | none => (v3zero, v3zero)
  | some lines =>
    if lines.length < 2 then (v3zero, v3zero)
    else
      let data := lines.getLast?.getD []
      if 6 ≤ data.length then
        match data with
        | _t :: f1 :: f2 :: f3 :: m1 :: m2 :: m3 :: _ =>
          (⟨f1, f2, f3⟩, ⟨m1, m2, m3⟩)
        | _ => (v3zero, v3zero)
      else (v3zero, v3zero)

/-- The forces/moments parsing contract as the specification words it:
missing file, fewer than 2 lines, or fewer than 6 trailing columns in the
last row give the zero default; otherwise columns 1-3 are the force and
columns 4-6 the moment components.  Stated independently of the code so the
code can be proved to refine it. -/
def forcesSpec (file : Option (List (List ℚ))) : V3 × V3 :=
  match file with
  | none => (v3zero, v3zero)
  | some lines =>
    if lines.length < 2 then (v3zero, v3zero)
    else
      match lines.getLast?.getD [] with
      | _t :: f1 :: f2 :: f3 :: m1 :: m2 :: m3 :: _ =>
        (⟨f1, f2, f3⟩, ⟨m1, m2, m3⟩)
      | _ => (v3zero, v3zero)

/-- Result of `OpenFOAMDataExtractor.extract_pressure_field`, lines 56-83. -/
structure PressureData where
  min_pressure : ℚ
  max_pressure : ℚ
  avg_pressure : ℚ
  deriving DecidableEq, Repr

/-- `extract_pressure_field`: the file is `none` when missing, otherwise the
pair of the regex matches for `min(p) = ...` and `max(p) = ...` (`none` when
the pattern does not occur).  A missed match defaults to 101325 and the
average is the midpoint. -/
def extract_pressure_field (pfile : Option (Option ℚ × Option ℚ)) : PressureData :=
  match pfile with
  | none => ⟨101325, 101325, 101325⟩
  | some (mn, mx) =>
    let minP := mn.getD 101325
    let maxP := mx.getD 101325
    ⟨minP, maxP, (minP + maxP) / 2⟩

/-- Result of `OpenFOAMDataExtractor.extract_velocity_field`, lines 85-119. -/
structure VelocityData where
  min_velocity : V3
  max_velocity : V3
  avg_velocity : V3
  deriving DecidableEq, Repr

/-- `extract_velocity_field`: per component the regex matches for
`min(U.c) = ...` / `max(U.c) = ...`, a missed match leaving the 0 default,
and the representative value is the componentwise midpoint. -/
def extract_velocity_field
    (vfile : Option ((Option ℚ × Option ℚ) × (Option ℚ × Option ℚ) × (Option ℚ × Option ℚ))) :
    VelocityData :=
  match vfile with
  | none => ⟨v3zero, v3zero, v3zero⟩
  | some (cx, cy, cz) =>
    let mn : V3 := ⟨cx.1.getD 0, cy.1.getD 0, cz.1.getD 0⟩
    let mx : V3 := ⟨cx.2.getD 0, cy.2.getD 0, cz.2.getD 0⟩
    ⟨mn, mx, ⟨(mn.x + mx.x) / 2, (mn.y + mx.y) / 2, (mn.z + mx.z) / 2⟩⟩

/-- The hardcoded principal moments of inertia of
`calculate_attitude_from_moments`: `Ix, Iy, Iz = 0.1, 0.1, 0.05`. -/
def Ix : ℚ := 1 / 10

/-- Second hardcoded principal moment of inertia, `Iy = 0.1`. -/
def Iy : ℚ := 1 / 10

/-- Third hardcoded principal moment of inertia, `Iz = 0.05`. -/
def Iz : ℚ := 1 / 20

/-- The snapshot dict built by `extract_all_cfd_data`, lines 213-224. -/
structure CFDState where
  timestamp : ℚ
  attitude : V3
  velocity : V3
  position : V3
  angular_velocity : V3
  forces : V3
  moments : V3
  pressure : ℚ
  temperature : ℚ
  dt : ℚ
  deriving DecidableEq, Repr

/-- The mutable state of one `OpenFOAMDataExtractor` instance:
`last_extraction_time` (initially 0) and the entries of `data_cache`
(each `none` while the key is absent). -/
structure ExtractorState where
  last_extraction_time : ℚ
  attitude : Option V3
  angular_velocity : Option V3
  position : Option V3
  last_cfd_data : Option CFDState
  deriving DecidableEq, Repr

/-- The extractor as constructed by `__init__`: `last_extraction_time = 0`
and an empty `data_cache`. -/
def initialExtractorState : ExtractorState := ⟨0, none, none, none, none⟩

/-- `calculate_attitude_from_moments`, lines 121-160: angular acceleration
`alpha = moment / I` per axis, explicit-Euler angular-velocity update
`omega = omega_prev + alpha * dt`, and the literal attitude update
`attitude = attitude_prev + omega * dt` with no radian-to-degree
conversion; previous values default to zero while the cache keys are
absent, and both cache keys are written back. -/
def calculate_attitude_from_moments (s : ExtractorState) (moments : V3) (dt : ℚ) :
    ExtractorState × V3 :=
  let prev_attitude := s.attitude.getD v3zero
  let alpha_x := moments.x / Ix
  let alpha_y := moments.y / Iy
  let alpha_z := moments.z / Iz
  let prev_omega := s.angular_velocity.getD v3zero
  let omega_x := prev_omega.x + alpha_x * dt
  let omega_y := prev_omega.y + alpha_y * dt
  let omega_z := prev_omega.z + alpha_z * dt
  let roll := prev_attitude.x + omega_x * dt
  let pitch := prev_attitude.y + omega_y * dt
  let yaw := prev_attitude.z + omega_z * dt
  ({ s with attitude := some ⟨roll, pitch, yaw⟩,
            angular_velocity := some ⟨omega_x, omega_y, omega_z⟩ },
   ⟨roll, pitch, yaw⟩)

/-- `calculate_position_from_velocity`, lines 162-180: explicit-Euler
position update from the cached previous position (default zero). -/
def calculate_position_from_velocity (s : ExtractorState) (velocity : V3) (dt : ℚ) :
    ExtractorState × V3 :=
  let prev := s.position.getD v3zero
  let p : V3 := ⟨prev.x + velocity.x * dt, prev.y + velocity.y * dt, prev.z + velocity.z * dt⟩
  ({ s with position := some p }, p)

/-- The three solver post-processing artifacts read by one extraction. -/
structure CFDEnv where
  forcesFile : Option (List (List ℚ))
  pressureFile : Option (Option ℚ × Option ℚ)
  velocityFile : Option ((Option ℚ × Option ℚ) × (Option ℚ × Option ℚ) × (Option ℚ × Option ℚ))
  deriving DecidableEq, Repr

/-- `extract_all_cfd_data`, lines 182-234.  `current_time` is the value of
`time.time()` at the call.  Within 10 ms of the last extraction (strictly:
`current_time - last_extraction_time < 0.01`) it returns
`data_cache.get('last_cfd_data', {})` — `none` models the empty dict —
without touching any state; otherwise it re-reads the artifacts, integrates
attitude and position, stores the snapshot in the cache and stamps
`last_extraction_time`. -/
def extract_all_cfd_data (s : ExtractorState) (env : CFDEnv) (current_time dt : ℚ) :
    ExtractorState × Option CFDState :=
  if current_time - s.last_extraction_time < 1 / 100 then
    (s, s.last_cfd_data)
  else
    let fm := extract_forces_and_moments env.forcesFile
    let pressure_data := extract_pressure_field env.pressureFile
    let velocity_data := extract_velocity_field env.velocityFile
    let velocity := velocity_data.avg_velocity
    let r1 := calculate_attitude_from_moments s fm.2 dt
    let r2 := calculate_position_from_velocity r1.1 velocity dt
    let angular_velocity := r2.1.angular_velocity.getD v3zero
    let cfd : CFDState :=
      ⟨current_time, r1.2, velocity, r2.2, angular_velocity, fm.1, fm.2,
       pressure_data.avg_pressure, 288, dt⟩
    ({ r2.1 with last_cfd_data := some cfd, last_extraction_time := current_time },
     some cfd)

/-! ## Configuration
    from `ActiveFinControlManager.update_config`
    (`f_backend_clean.py`, lines 252-259). -/

/-- The dataclass `ActiveFinControlConfig`; `control_gains` is its three
entries `kp, ki, kd` and `control_code` the character list of the source
text. -/
structure ActiveFinControlConfig where
  enabled : Bool
  cfd_time_step : ℚ
  control_update_rate : ℚ
  fin_deflection_limit : ℚ
  gains : ℚ × ℚ × ℚ
  control_code : List Char
  deriving DecidableEq, Repr

/-- The incoming `config_data` dict; a field is `none` when the key is
absent, so `dict.get(key, default)` becomes `Option.getD`. -/
structure ConfigData where
  enabled : Option Bool
  cfd_time_step : Option ℚ
  control_update_rate : Option ℚ
  fin_deflection_limit : Option ℚ
  gains : Option (ℚ × ℚ × ℚ)
  control_code : Option (List Char)
  deriving DecidableEq, Repr

/-- `ActiveFinControlManager.update_config`, lines 252-259: every field of
the active configuration is overwritten from `config_data` with the
documented default when the key is absent.  The body is six plain
assignments — it contains no validation and no error path, so the function
is total and its result is the configuration that becomes active. -/
def update_config (config_data : ConfigData) : ActiveFinControlConfig :=
  { enabled := config_data.enabled.getD false
    cfd_time_step := config_data.cfd_time_step.getD (1 / 100)
    control_update_rate := config_data.control_update_rate.getD 100
    fin_deflection_limit := config_data.fin_deflection_limit.getD 15
    gains := config_data.gains.getD (1, 1 / 10, 1 / 20)
    control_code := config_data.control_code.getD [] }

/-! ## ControlLoopScheduler
    from `ActiveFinControlManager.start_control_loop` /
    `stop_control_loop` / `_control_loop`
    (`f_backend_clean.py`, lines 305-344). -/

/-- The scheduler-relevant state of one `ActiveFinControlManager`:
the `running` flag, the held `control_thread` (its id, `none` while the
attribute is `None`), the number of currently alive loop threads, and a
counter supplying fresh thread ids. -/
structure SchedulerState where
  running : Bool
  control_thread : Option Nat
  activeContexts : Nat
  nextThreadId : Nat
  deriving DecidableEq, Repr

/-- The manager as constructed by `__init__`: not running, no thread. -/
def initialSchedulerState : SchedulerState := ⟨false, none, 0, 0⟩

/-- `start_control_loop`, lines 305-312: an early `return` when already
running, otherwise set the flag, create one new thread and start it. -/
def start_control_loop (s : SchedulerState) : SchedulerState :=
  if s.running then s
  else
    { running := true
      control_thread := some s.nextThreadId
      activeContexts := s.activeContexts + 1
      nextThreadId := s.nextThreadId + 1 }

/-- `stop_control_loop`, lines 314-318: clear the flag, then join the held
thread when there is one.  The loop thread exits once it observes
`running = false`, so the join leaves no alive loop thread; when
`control_thread` is `None` the join is skipped.  The body has no failure
path, so the function is total (a no-op apart from the flag when idle). -/
def stop_control_loop (s : SchedulerState) : SchedulerState :=
  let s1 := { s with running := false }
  match s1.control_thread with
  | none => s1
  | some _ => { s1 with activeContexts := 0 }

/-- Whether the body of one control cycle (`_control_loop`, lines 323-340)
ran to completion or raised. -/
inductive CycleOutcome where
  | ok
  | exc
  deriving DecidableEq, Repr

/-- One pass of the `while self.running` loop, lines 320-344: when the flag
is false the loop exits (`none`); otherwise the cycle body runs with
outcome `o` and the loop sleeps — `1.0 / control_update_rate` after a
normal cycle, the 0.1 s backoff in the `except` branch — and continues
(`some sleepSeconds`). -/
def control_loop_step (running : Bool) (updateRate : ℚ) (o : CycleOutcome) : Option ℚ :=
  if running then
    match o with
    | .ok => some (1 / updateRate)
    | .exc => some (1 / 10)
  else none

/-- Result of running the loop against a finite trace of observations. -/
inductive LoopExit where
  | stopped (cyclesBefore : Nat)
  | runningStill
  deriving DecidableEq, Repr

/-- The `while self.running` loop run against a finite trace: entry `k` of
the trace is the value of `running` read at the top of pass `k` together
with the outcome the cycle body would have on that pass.  `stopped n` means
the loop exited after `n` completed passes; `runningStill` means the trace
was exhausted with the loop still live. -/
def control_loop_run (updateRate : ℚ) : List (Bool × CycleOutcome) → LoopExit
  | [] => .runningStill
  | (flag, o) :: rest =>
    match control_loop_step flag updateRate o with
    | none => .stopped 0
    | some _ =>
      match control_loop_run updateRate rest with
      | .stopped n => .stopped (n + 1)
      | .runningStill => .runningStill

/-! ## SurfaceActuator
    from `FinGeometryManager.update_fin_deflection` and
    `MeshMorpher.update_fin_deflections` (`mesh_morphing.py`). -/

/-- A surface mesh as its vertex list (`mesh.vertices`). -/
abbrev Geometry := List V3

/-- The state of one `FinGeometryManager`: the three dicts set up at load
time, keyed by fin id, plus the boundary-surface artifacts written under
`constant/triSurface/<fin_id>.stl`, also keyed by fin id. -/
structure FinManagerState where
  fin_geometries : List (Nat × Geometry)
  fin_attachment_points : List (Nat × V3)
  fin_axes : List (Nat × V3)
  artifacts : List (Nat × Geometry)
  deriving DecidableEq, Repr

/-- Overwrite-or-insert on an association list, modelling both a dict entry
assignment and the overwriting file write of an artifact. -/
def setAssoc {β : Type} : List (Nat × β) → Nat → β → List (Nat × β)
  | [], k, v => [(k, v)]
  | (k0, v0) :: rest, k, v =>
    if k0 = k then (k0, v) :: rest else (k0, v0) :: setAssoc rest k v

/-- `FinGeometryManager.update_fin_deflection`, lines 99-145, parametrised
by the scipy rotation oracle `rotApply axis angleDeg v` (the application of
`R.from_rotvec(rotation_axis * np.radians(angle)).as_matrix()` to `v`).
The three membership checks return `False` before anything is modified;
on success the vertices of a `copy()` of the base mesh are translated by
`-attachment_point`, rotated, translated back, and the result is written
as the fin's artifact.  The base entry in `fin_geometries` is never
reassigned. -/
def update_fin_deflection (rotApply : V3 → ℚ → V3 → V3)
    (s : FinManagerState) (fin_id : Nat) (deflection_angle : ℚ) :
    FinManagerState × Bool :=
  match s.fin_geometries.lookup fin_id with
  | none => (s, false)
  | some mesh =>
    match s.fin_attachment_points.lookup fin_id with
    | none => (s, false)
    | some attachment_point =>
      match s.fin_axes.lookup fin_id with
      | none => (s, false)
      | some rotation_axis =>
        let newVerts := mesh.map fun v =>
          vadd (rotApply rotation_axis deflection_angle (vsub v attachment_point))
            attachment_point
        ({ s with artifacts := setAssoc s.artifacts fin_id newVerts }, true)

/-- `MeshMorpher.update_fin_deflections`, lines 169-188: iterate the
deflection dict in order and return `False` at the first per-fin failure;
after the loop the boundary-condition and point-displacement updates are
print-only placeholders, so the state is unchanged by them. -/
def update_fin_deflections (rotApply : V3 → ℚ → V3 → V3)
    (s : FinManagerState) : List (Nat × ℚ) → FinManagerState × Bool
  | [] => (s, true)
  | (fin_id, d) :: rest =>
    let r := update_fin_deflection rotApply s fin_id d
    if r.2 then update_fin_deflections rotApply r.1 rest
    else (r.1, false)

/-- Stepwise success of a prefix of per-fin updates: the state reached when
every update in the list succeeds, `none` as soon as one fails. -/
def applyAllOk (rotApply : V3 → ℚ → V3 → V3)
    (s : FinManagerState) : List (Nat × ℚ) → Option FinManagerState
  | [] => some s
  | (fin_id, d) :: rest =>
    let r := update_fin_deflection rotApply s fin_id d
    if r.2 then applyAllOk rotApply r.1 rest else none

/-! ## Claims -/

/-- Claim C1: for every raw deflection vector `[a, b, c, d, ...]` and every
configured limit `limit ≥ 0`, the limiter produces
`clamped[i] = max(-limit, min(limit, raw[i]))` per surface; every command
ever produced — the fail-safe zero command included — has all four
per-surface deflections in `[-limit, +limit]`; and in particular
`raw = [20, -20, 5, 0]` with `limit = 15` yields `[15, -15, 5, 0]`. -/
theorem c1_actuation_limiter (limit t a b c d : ℚ) (rest : List ℚ)
    (o : SandboxOutcome) (h : 0 ≤ limit) :
    execute_control_algorithm limit t (.returns (a :: b :: c :: d :: rest)) =
      ⟨t, max (-limit) (min limit a), max (-limit) (min limit b),
        max (-limit) (min limit c), max (-limit) (min limit d)⟩ ∧
    ((-limit ≤ (execute_control_algorithm limit t o).fin1 ∧
        (execute_control_algorithm limit t o).fin1 ≤ limit) ∧
      (-limit ≤ (execute_control_algorithm limit t o).fin2 ∧
        (execute_control_algorithm limit t o).fin2 ≤ limit) ∧
      (-limit ≤ (execute_control_algorithm limit t o).fin3 ∧
        (execute_control_algorithm limit t o).fin3 ≤ limit) ∧
      (-limit ≤ (execute_control_algorithm limit t o).fin4 ∧
        (execute_control_algorithm limit t o).fin4 ≤ limit)) ∧
    execute_control_algorithm 15 t (.returns [20, -20, 5, 0]) =
      ⟨t, 15, -15, 5, 0⟩ := by
  have hneg : -limit ≤ (0 : ℚ) := by linarith
  have hb : ∀ v : ℚ,
      -limit ≤ clampDeflection limit v ∧ clampDeflection limit v ≤ limit := by
    intro v
    unfold clampDeflection
    exact ⟨le_max_left _ _, max_le (by linarith) (min_le_left _ _)⟩
  refine ⟨?_, ?_, ?_⟩
  · simp [execute_control_algorithm, clampDeflection]
  · rcases o with _ | vals
    · exact ⟨⟨hneg, h⟩, ⟨hneg, h⟩, ⟨hneg, h⟩, ⟨hneg, h⟩⟩
    · rcases vals with _ | ⟨v1, _ | ⟨v2, _ | ⟨v3, _ | ⟨v4, vrest⟩⟩⟩⟩
      · exact ⟨⟨hneg, h⟩, ⟨hneg, h⟩, ⟨hneg, h⟩, ⟨hneg, h⟩⟩
      · exact ⟨⟨hneg, h⟩, ⟨hneg, h⟩, ⟨hneg, h⟩, ⟨hneg, h⟩⟩
      · exact ⟨⟨hneg, h⟩, ⟨hneg, h⟩, ⟨hneg, h⟩, ⟨hneg, h⟩⟩
      · exact ⟨⟨hneg, h⟩, ⟨hneg, h⟩, ⟨hneg, h⟩, ⟨hneg, h⟩⟩
      · exact ⟨hb v1, hb v2, hb v3, hb v4⟩
  · show execute_control_algorithm 15 t
        (.returns ((20 : ℚ) :: (-20 : ℚ) :: (5 : ℚ) :: (0 : ℚ) :: [])) = _
    simp [execute_control_algorithm, clampDeflection]
    norm_num

/-- Witness for C1: the hypothesis `0 ≤ 15` holds and the theorem applied at
`limit = 15`, `raw = [20, -20, 5, 0]` gives the documented example. -/
theorem c1_actuation_limiter_witness :
    (0 : ℚ) ≤ 15 ∧
    execute_control_algorithm 15 0 (.returns [20, -20, 5, 0]) =
      ⟨0, 15, -15, 5, 0⟩ :=
  ⟨by norm_num,
   (c1_actuation_limiter 15 0 20 (-20) 5 0 [] .throws (by norm_num)).2.2⟩

/-- Claim C3: whenever the sandbox evaluation throws (parse failure, absent
`calculateFinDeflections`, the function raising) or returns fewer than 4
numeric values, `execute_control_algorithm` returns the zero command
`[0, 0, 0, 0]`; the function is total, so the error never reaches the
caller. -/
theorem c3_sandbox_failsafe (limit t : ℚ) (vals : List ℚ) (o : SandboxOutcome)
    (h : o = .throws ∨ (o = .returns vals ∧ vals.length < 4)) :
    execute_control_algorithm limit t o = ⟨t, 0, 0, 0, 0⟩ := by
  rcases h with h | ⟨h, hlen⟩
  · subst h; rfl
  · subst h
    rcases vals with _ | ⟨v1, _ | ⟨v2, _ | ⟨v3, _ | ⟨v4, vrest⟩⟩⟩⟩
    · rfl
    · rfl
    · rfl
    · rfl
    · simp at hlen
      omega

/-- Witness for C3: the sandbox returning the 3-element list `[1, 2, 3]`
satisfies the hypothesis and yields the zero command. -/
theorem c3_sandbox_failsafe_witness :
    (SandboxOutcome.returns [(1 : ℚ), 2, 3] = .throws ∨
      (SandboxOutcome.returns [(1 : ℚ), 2, 3] = .returns [1, 2, 3] ∧
        List.length [(1 : ℚ), 2, 3] < 4)) ∧
    execute_control_algorithm 15 0 (.returns [1, 2, 3]) = ⟨0, 0, 0, 0, 0⟩ :=
  ⟨Or.inr ⟨rfl, by norm_num⟩,
   c3_sandbox_failsafe 15 0 [1, 2, 3] (.returns [1, 2, 3])
     (Or.inr ⟨rfl, by norm_num⟩)⟩

/-- Claim C2: from a fresh estimator, one integration step with moments
`[0.01, 0, 0]` and `dt = 0.1` gives `alpha_x = 0.01 / Ix = 0.1`,
`omega_x = 0.01` and `roll = 0.001`; a second identical step gives
`omega_x = 0.02` and `roll = 0.003`; and in general the attitude update is
the literal arithmetic `attitude_prev + omega_new * dt` with no
radian-to-degree conversion. -/
theorem c2_attitude_integration (s : ExtractorState) (moments : V3) (dt : ℚ) :
    (let m : V3 := ⟨1 / 100, 0, 0⟩
     let r1 := calculate_attitude_from_moments initialExtractorState m (1 / 10)
     let r2 := calculate_attitude_from_moments r1.1 m (1 / 10)
     ((1 : ℚ) / 100) / Ix = 1 / 10 ∧
     r1.1.angular_velocity = some ⟨1 / 100, 0, 0⟩ ∧
     r1.2.x = 1 / 1000 ∧
     r2.1.angular_velocity = some ⟨1 / 50, 0, 0⟩ ∧
     r2.2.x = 3 / 1000) ∧
    ((calculate_attitude_from_moments s moments dt).2).x =
      (s.attitude.getD v3zero).x +
        ((s.angular_velocity.getD v3zero).x + moments.x / Ix * dt) * dt := by
  constructor
  · norm_num [calculate_attitude_from_moments, initialExtractorState, Ix, v3zero]
  · simp [calculate_attitude_from_moments]

/-- Claim C5: the forces/moments parser is total (the whole body sits in a
`try` returning the zero default) and refines the documented table
contract: missing file, fewer than 2 lines, or fewer than 6 trailing
columns in the last row give `forces = [0,0,0], moments = [0,0,0]`;
otherwise the last row's columns 1-3 are the forces and 4-6 the moments.
`forcesSpec` is that contract stated verbatim; the code side also exercises
its `len(data) >= 6` check followed by the `data[6]` read that raises
`IndexError` on a row of exactly 6 tokens. -/
theorem c5_forces_parse (file : Option (List (List ℚ))) :
    extract_forces_and_moments file = forcesSpec file := by
  rcases file with _ | lines
  · rfl
  · by_cases hlen : lines.length < 2
    · simp [extract_forces_and_moments, forcesSpec, hlen]
    · rcases hdata : lines.getLast?.getD [] with
        _ | ⟨t, _ | ⟨f1, _ | ⟨f2, _ | ⟨f3, _ | ⟨m1, _ | ⟨m2, _ | ⟨m3, rest⟩⟩⟩⟩⟩⟩⟩ <;>
      simp [extract_forces_and_moments, forcesSpec, hlen, hdata]

/-- Counterexample to Claim C4: `update_config` with the invalid values
`fin_deflection_limit = -5`, `control_update_rate = -100`,
`cfd_time_step = 0` accepts all three — they become the active
configuration, and the function (whose body is six plain assignments) has
no error result at all. -/
theorem c4_counterexample :
    (update_config ⟨some true, some 0, some (-100), some (-5), none, none⟩).fin_deflection_limit = -5 ∧
    (update_config ⟨some true, some 0, some (-100), some (-5), none, none⟩).control_update_rate = -100 ∧
    (update_config ⟨some true, some 0, some (-100), some (-5), none, none⟩).cfd_time_step = 0 :=
  ⟨rfl, rfl, rfl⟩

/-- Claim C4 (amended): `update_config` performs no validation — every
supplied value, negative deflection limits and non-positive rates or time
steps included, becomes the active configuration unchanged, and an absent
deflection-limit key falls back to the default 15. -/
theorem c4_no_validation (d : ConfigData) (L r t : ℚ) :
    (d.fin_deflection_limit = some L → (update_config d).fin_deflection_limit = L) ∧
    (d.control_update_rate = some r → (update_config d).control_update_rate = r) ∧
    (d.cfd_time_step = some t → (update_config d).cfd_time_step = t) ∧
    (d.fin_deflection_limit = none → (update_config d).fin_deflection_limit = 15) := by
  refine ⟨?_, ?_, ?_, ?_⟩ <;> intro h <;> simp [update_config, h]

/-- Witness for the amended C4: the invalid limit `-5` is present in the
incoming dict and `update_config` installs it unchanged. -/
theorem c4_no_validation_witness :
    (ConfigData.mk (some true) (some 0) (some (-100)) (some (-5)) none none).fin_deflection_limit = some (-5) ∧
    (update_config ⟨some true, some 0, some (-100), some (-5), none, none⟩).fin_deflection_limit = -5 :=
  ⟨rfl,
   (c4_no_validation ⟨some true, some 0, some (-100), some (-5), none, none⟩
     (-5) (-100) 0).1 rfl⟩

/-- A call that is not rate-limited takes the extraction branch: it stamps
`last_extraction_time` with the call time, caches exactly the snapshot it
returns, succeeds, and the snapshot's timestamp is the call time. -/
theorem extract_all_not_limited (s : ExtractorState) (env : CFDEnv) (t dt : ℚ)
    (h : ¬ t - s.last_extraction_time < 1 / 100) :
    (extract_all_cfd_data s env t dt).1.last_extraction_time = t ∧
    (extract_all_cfd_data s env t dt).1.last_cfd_data =
      (extract_all_cfd_data s env t dt).2 ∧
    ((extract_all_cfd_data s env t dt).2).isSome = true ∧
    (∀ st, (extract_all_cfd_data s env t dt).2 = some st → st.timestamp = t) := by
  unfold extract_all_cfd_data
  rw [if_neg h]
  refine ⟨rfl, rfl, rfl, ?_⟩
  intro st hst
  injection hst with h2
  rw [← h2]

/-- A call strictly within 10 ms of `last_extraction_time` takes the
rate-limited branch: state untouched, cached snapshot returned. -/
theorem extract_all_limited (s : ExtractorState) (env : CFDEnv) (t dt : ℚ)
    (h : t - s.last_extraction_time < 1 / 100) :
    extract_all_cfd_data s env t dt = (s, s.last_cfd_data) := by
  unfold extract_all_cfd_data
  rw [if_pos h]

/-- Counterexample to Claim C6: two calls exactly 10 ms apart where the
first succeeded.  With an empty case directory, the first call at
`current_time = 1` extracts and caches a snapshot stamped 1; the second
call at `current_time = 1 + 1/100` is not rate-limited (the code tests
strictly `current_time - last_extraction_time < 0.01`), re-extracts, and
returns a snapshot stamped `1 + 1/100`, so the two calls — exactly 10 ms
apart, hence "10 ms or less apart" — return different states. -/
theorem c6_counterexample :
    ((extract_all_cfd_data initialExtractorState ⟨none, none, none⟩ 1 (1 / 100)).2).isSome
      = true ∧
    (extract_all_cfd_data
        (extract_all_cfd_data initialExtractorState ⟨none, none, none⟩ 1 (1 / 100)).1
        ⟨none, none, none⟩ (1 + 1 / 100) (1 / 100)).2 ≠
      (extract_all_cfd_data initialExtractorState ⟨none, none, none⟩ 1 (1 / 100)).2 := by
  have h1 : ¬ ((1 : ℚ) - initialExtractorState.last_extraction_time < 1 / 100) := by
    norm_num [initialExtractorState]
  obtain ⟨hT1, hC1, hS1, hStamp1⟩ :=
    extract_all_not_limited initialExtractorState ⟨none, none, none⟩ 1 (1 / 100) h1
  have h2 : ¬ ((1 + 1 / 100 : ℚ) -
      (extract_all_cfd_data initialExtractorState ⟨none, none, none⟩ 1
        (1 / 100)).1.last_extraction_time < 1 / 100) := by
    rw [hT1]; norm_num
  obtain ⟨hT2, hC2, hS2, hStamp2⟩ :=
    extract_all_not_limited _ ⟨none, none, none⟩ (1 + 1 / 100) (1 / 100) h2
  refine ⟨hS1, ?_⟩
  intro heq
  obtain ⟨st1, hst1⟩ := Option.isSome_iff_exists.mp hS1
  obtain ⟨st2, hst2⟩ := Option.isSome_iff_exists.mp hS2
  have e1 := hStamp1 st1 hst1
  have e2 := hStamp2 st2 hst2
  rw [hst2, hst1] at heq
  have hs12 : st2 = st1 := Option.some.inj heq
  rw [hs12, e1] at e2
  norm_num at e2

/-- Claim C6 (amended): with "10 ms or less" weakened to "strictly less
than 10 ms": whenever a first call actually extracts (is not itself
rate-limited) and a second call comes strictly within 10 ms of it, the
second call returns the first's snapshot bit-identically (same timestamp)
and leaves the extractor state untouched. -/
theorem c6_rate_limiting (s0 : ExtractorState) (env1 env2 : CFDEnv)
    (t1 t2 dt1 dt2 : ℚ)
    (h1 : ¬ t1 - s0.last_extraction_time < 1 / 100)
    (h2 : t2 - t1 < 1 / 100) :
    (extract_all_cfd_data (extract_all_cfd_data s0 env1 t1 dt1).1 env2 t2 dt2).2 =
      (extract_all_cfd_data s0 env1 t1 dt1).2 ∧
    (extract_all_cfd_data (extract_all_cfd_data s0 env1 t1 dt1).1 env2 t2 dt2).1 =
      (extract_all_cfd_data s0 env1 t1 dt1).1 ∧
    ((extract_all_cfd_data s0 env1 t1 dt1).2).isSome = true := by
  obtain ⟨hT, hC, hS, _⟩ := extract_all_not_limited s0 env1 t1 dt1 h1
  have hcond : t2 - (extract_all_cfd_data s0 env1 t1 dt1).1.last_extraction_time
      < 1 / 100 := by
    rw [hT]; exact h2
  rw [extract_all_limited (extract_all_cfd_data s0 env1 t1 dt1).1 env2 t2 dt2 hcond]
  exact ⟨hC, rfl, hS⟩

/-- Witness for the amended C6: a first extraction at time 1 followed by a
second call 5 ms later returns the identical snapshot. -/
theorem c6_rate_limiting_witness :
    (¬ (1 : ℚ) - initialExtractorState.last_extraction_time < 1 / 100) ∧
    ((1 + 1 / 200 : ℚ) - 1 < 1 / 100) ∧
    (extract_all_cfd_data
        (extract_all_cfd_data initialExtractorState ⟨none, none, none⟩ 1 (1 / 100)).1
        ⟨none, none, none⟩ (1 + 1 / 200) (1 / 100)).2 =
      (extract_all_cfd_data initialExtractorState ⟨none, none, none⟩ 1 (1 / 100)).2 :=
  ⟨by norm_num [initialExtractorState], by norm_num,
   (c6_rate_limiting initialExtractorState ⟨none, none, none⟩ ⟨none, none, none⟩
     1 (1 + 1 / 200) (1 / 100) (1 / 100)
     (by norm_num [initialExtractorState]) (by norm_num)).1⟩

/-- Looking up the key just written by `setAssoc` returns the new value. -/
theorem lookup_setAssoc {β : Type} (l : List (Nat × β)) (k : Nat) (v : β) :
    (setAssoc l k v).lookup k = some v := by
  induction l with
  | nil => simp [setAssoc, List.lookup]
  | cons hd tl ih =>
    obtain ⟨k0, v0⟩ := hd
    by_cases hk : k0 = k
    · subst hk
      simp [setAssoc, List.lookup]
    · simp only [setAssoc, if_neg hk, List.lookup]
      have : (k == k0) = false := by
        simp [Ne.symm hk]
      rw [this]
      exact ih

/-- One `update_fin_deflection` call never changes the stored base
geometries, whichever branch it takes. -/
theorem update_fin_deflection_base (rotApply : V3 → ℚ → V3 → V3)
    (st : FinManagerState) (k : Nat) (θ : ℚ) :
    (update_fin_deflection rotApply st k θ).1.fin_geometries = st.fin_geometries := by
  unfold update_fin_deflection
  rcases st.fin_geometries.lookup k with _ | mesh
  · rfl
  · rcases st.fin_attachment_points.lookup k with _ | p
    · rfl
    · rcases st.fin_axes.lookup k with _ | ax
      · rfl
      · rfl

/-- Any finite sequence of `update_fin_deflection` calls leaves the stored
base geometries unchanged. -/
theorem foldl_update_fin_deflection_base (rotApply : V3 → ℚ → V3 → V3)
    (calls : List (Nat × ℚ)) (st : FinManagerState) :
    (calls.foldl (fun acc c => (update_fin_deflection rotApply acc c.1 c.2).1)
        st).fin_geometries = st.fin_geometries := by
  induction calls generalizing st with
  | nil => rfl
  | cons c rest ih =>
    simp only [List.foldl_cons]
    rw [ih, update_fin_deflection_base]

/-- A failing `update_fin_deflection` call (all three failure branches
precede any modification) returns its input state unchanged. -/
theorem update_fin_deflection_fail (rotApply : V3 → ℚ → V3 → V3)
    (st : FinManagerState) (k : Nat) (θ : ℚ)
    (h : (update_fin_deflection rotApply st k θ).2 = false) :
    (update_fin_deflection rotApply st k θ).1 = st := by
  revert h
  unfold update_fin_deflection
  rcases st.fin_geometries.lookup k with _ | mesh
  · intro _; rfl
  · rcases st.fin_attachment_points.lookup k with _ | p
    · intro _; rfl
    · rcases st.fin_axes.lookup k with _ | ax
      · intro _; rfl
      · intro h; simp at h

/-- Claim C7: for every rotation oracle and any number of actuation calls,
the stored base geometry of each surface is unchanged afterward, and the
artifact written by a successful call is computed from a fresh copy of the
base geometry: each vertex translated by `-pivot`, rotated about the bound
axis by the commanded deflection, and translated back by `+pivot`. -/
theorem c7_base_geometry_immutable (rotApply : V3 → ℚ → V3 → V3)
    (s : FinManagerState) (fin_id : Nat) (θ : ℚ) (calls : List (Nat × ℚ))
    (mesh : Geometry) (p axis : V3)
    (hg : s.fin_geometries.lookup fin_id = some mesh)
    (hp : s.fin_attachment_points.lookup fin_id = some p)
    (ha : s.fin_axes.lookup fin_id = some axis) :
    (update_fin_deflection rotApply s fin_id θ).1.fin_geometries =
      s.fin_geometries ∧
    (calls.foldl (fun acc c => (update_fin_deflection rotApply acc c.1 c.2).1)
        s).fin_geometries = s.fin_geometries ∧
    (update_fin_deflection rotApply s fin_id θ).1.artifacts.lookup fin_id =
      some (mesh.map fun v => vadd (rotApply axis θ (vsub v p)) p) := by
  refine ⟨update_fin_deflection_base rotApply s fin_id θ,
    foldl_update_fin_deflection_base rotApply calls s, ?_⟩
  unfold update_fin_deflection
  rw [hg, hp, ha]
  exact lookup_setAssoc s.artifacts fin_id _

/-- Witness for C7: a one-fin manager with the identity rotation oracle;
fin 1 has base vertex `(1, 2, 3)`, pivot at the origin, axis `(1, 0, 0)`. -/
theorem c7_base_geometry_immutable_witness :
    (FinManagerState.mk [(1, [⟨1, 2, 3⟩])] [(1, ⟨0, 0, 0⟩)] [(1, ⟨1, 0, 0⟩)]
        []).fin_geometries.lookup 1 = some [⟨1, 2, 3⟩] ∧
    (update_fin_deflection (fun _ _ v => v)
        ⟨[(1, [⟨1, 2, 3⟩])], [(1, ⟨0, 0, 0⟩)], [(1, ⟨1, 0, 0⟩)], []⟩ 1
        5).1.fin_geometries = [(1, [⟨1, 2, 3⟩])] ∧
    (update_fin_deflection (fun _ _ v => v)
        ⟨[(1, [⟨1, 2, 3⟩])], [(1, ⟨0, 0, 0⟩)], [(1, ⟨1, 0, 0⟩)], []⟩ 1
        5).1.artifacts.lookup 1 =
      some ([⟨1, 2, 3⟩].map fun v =>
        vadd ((fun (_ : V3) (_ : ℚ) (w : V3) => w) ⟨1, 0, 0⟩ 5 (vsub v ⟨0, 0, 0⟩))
          ⟨0, 0, 0⟩) :=
  ⟨rfl,
   (c7_base_geometry_immutable (fun _ _ v => v)
     ⟨[(1, [⟨1, 2, 3⟩])], [(1, ⟨0, 0, 0⟩)], [(1, ⟨1, 0, 0⟩)], []⟩ 1 5 []
     [⟨1, 2, 3⟩] ⟨0, 0, 0⟩ ⟨1, 0, 0⟩ rfl rfl rfl).1,
   (c7_base_geometry_immutable (fun _ _ v => v)
     ⟨[(1, [⟨1, 2, 3⟩])], [(1, ⟨0, 0, 0⟩)], [(1, ⟨1, 0, 0⟩)], []⟩ 1 5 []
     [⟨1, 2, 3⟩] ⟨0, 0, 0⟩ ⟨1, 0, 0⟩ rfl rfl rfl).2.2⟩

/-- A trace whose flag readings are all `true` never makes the loop exit,
however many cycles raised. -/
theorem control_loop_run_all_true (rate : ℚ) (trace : List (Bool × CycleOutcome))
    (h : ∀ p ∈ trace, p.1 = true) : control_loop_run rate trace = .runningStill := by
  induction trace with
  | nil => rfl
  | cons q rest ih =>
    obtain ⟨flag, o⟩ := q
    have hflag : flag = true := h _ (List.mem_cons_self _ _)
    subst hflag
    have hrest : ∀ p ∈ rest, p.1 = true := fun q hq => h q (List.mem_cons_of_mem _ hq)
    cases o <;> simp [control_loop_run, control_loop_step, ih hrest]

/-- When the loop run over a trace stops after `n` passes, the flag read at
the top of pass `n` was `false`: the loop exits only on the stop signal. -/
theorem control_loop_run_stopped (rate : ℚ) (trace : List (Bool × CycleOutcome))
    (n : Nat) (h : control_loop_run rate trace = .stopped n) :
    ∃ o, trace.get? n = some (false, o) := by
  induction trace generalizing n with
  | nil =>
    have h2 : LoopExit.runningStill = LoopExit.stopped n := h
    exact LoopExit.noConfusion h2
  | cons q rest ih =>
    obtain ⟨flag, o⟩ := q
    cases flag
    · have h2 : LoopExit.stopped 0 = LoopExit.stopped n := h
      injection h2 with h3
      subst h3
      exact ⟨o, rfl⟩
    · rcases hrec : control_loop_run rate rest with m | _
      · cases o
        · have h2 : LoopExit.stopped (m + 1) = LoopExit.stopped n := by
            rw [← h]
            show _ = match control_loop_run rate rest with
              | LoopExit.stopped n => LoopExit.stopped (n + 1)
              | LoopExit.runningStill => LoopExit.runningStill
            rw [hrec]
          injection h2 with h3
          subst h3
          simpa using ih m hrec
        · have h2 : LoopExit.stopped (m + 1) = LoopExit.stopped n := by
            rw [← h]
            show _ = match control_loop_run rate rest with
              | LoopExit.stopped n => LoopExit.stopped (n + 1)
              | LoopExit.runningStill => LoopExit.runningStill
            rw [hrec]
          injection h2 with h3
          subst h3
          simpa using ih m hrec
      · cases o
        · have h2 : LoopExit.runningStill = LoopExit.stopped n := by
            rw [← h]
            show _ = match control_loop_run rate rest with
              | LoopExit.stopped n => LoopExit.stopped (n + 1)
              | LoopExit.runningStill => LoopExit.runningStill
            rw [hrec]
          exact LoopExit.noConfusion h2
        · have h2 : LoopExit.runningStill = LoopExit.stopped n := by
            rw [← h]
            show _ = match control_loop_run rate rest with
              | LoopExit.stopped n => LoopExit.stopped (n + 1)
              | LoopExit.runningStill => LoopExit.runningStill
            rw [hrec]
          exact LoopExit.noConfusion h2

/-- Claim C8: while the flag is up, an exception inside a cycle is caught
and followed by the 0.1 s backoff sleep before the next attempt; with the
flag down the loop exits before running a cycle; a trace of passes that all
read the flag as `true` never terminates the loop, however many cycles
raised; and whenever the loop does stop it is because the pass it stopped
on read the flag as `false` — never as a consequence of a cycle
exception. -/
theorem c8_loop_error_containment (rate : ℚ) (trace : List (Bool × CycleOutcome))
    (n : Nat) :
    control_loop_step true rate .exc = some (1 / 10) ∧
    (control_loop_step false rate .exc = none ∧
      control_loop_step false rate .ok = none) ∧
    ((∀ p ∈ trace, p.1 = true) → control_loop_run rate trace = .runningStill) ∧
    (control_loop_run rate trace = .stopped n →
      ∃ o, trace.get? n = some (false, o)) :=
  ⟨rfl, ⟨rfl, rfl⟩, control_loop_run_all_true rate trace,
    control_loop_run_stopped rate trace n⟩

/-- Witness for C8: the pass after a raising cycle continues (the trace
`[(true, exc)]` leaves the loop live), and a stopping run stopped on a
`false` flag reading. -/
theorem c8_loop_error_containment_witness :
    (control_loop_run 100 [(true, CycleOutcome.exc), (false, CycleOutcome.ok)] =
        .stopped 1 ∧
      ∃ o, [(true, CycleOutcome.exc),
        (false, CycleOutcome.ok)].get? 1 = some (false, o)) ∧
    ((∀ p ∈ [(true, CycleOutcome.exc)], p.1 = true) ∧
      control_loop_run 100 [(true, CycleOutcome.exc)] = .runningStill) :=
  ⟨⟨rfl, (c8_loop_error_containment 100
      [(true, CycleOutcome.exc), (false, CycleOutcome.ok)] 1).2.2.2 rfl⟩,
   ⟨by simp, (c8_loop_error_containment 100 [(true, CycleOutcome.exc)] 1).2.2.1
      (by simp)⟩⟩

/-- Claim C9: `start` on an already-running scheduler is the identity (no
new execution context); starting twice from idle yields running status both
times and exactly one live execution context; `stop` on an idle scheduler
is total (the code has no raising branch) and leaves `running = false`. -/
theorem c9_scheduler_lifecycle (s : SchedulerState) (h : s.running = true) :
    start_control_loop s = s ∧
    (start_control_loop initialSchedulerState).running = true ∧
    (start_control_loop (start_control_loop initialSchedulerState)).running = true ∧
    (start_control_loop (start_control_loop initialSchedulerState)).activeContexts
      = 1 ∧
    start_control_loop (start_control_loop initialSchedulerState) =
      start_control_loop initialSchedulerState ∧
    (stop_control_loop initialSchedulerState).running = false ∧
    stop_control_loop initialSchedulerState = initialSchedulerState := by
  refine ⟨?_, rfl, rfl, rfl, rfl, rfl, rfl⟩
  simp [start_control_loop, h]

/-- Witness for C9: the scheduler right after one `start` is running, and a
second `start` returns it unchanged. -/
theorem c9_scheduler_lifecycle_witness :
    (start_control_loop initialSchedulerState).running = true ∧
    start_control_loop (start_control_loop initialSchedulerState) =
      start_control_loop initialSchedulerState :=
  ⟨rfl, (c9_scheduler_lifecycle (start_control_loop initialSchedulerState) rfl).1⟩

/-- Claim C10: `update_fin_deflections` short-circuits: when every update
in `pre` succeeds and the update for `(k, d)` then fails, the call returns
`false` with exactly the state reached after `pre` — the surfaces of `pre`
have their new artifacts written, the failing surface changes nothing, and
no later entry is processed, so later surfaces retain the previous cycle's
artifacts. -/
theorem c10_short_circuit (rotApply : V3 → ℚ → V3 → V3)
    (s s1 : FinManagerState) (pre post : List (Nat × ℚ)) (k : Nat) (d : ℚ)
    (hpre : applyAllOk rotApply s pre = some s1)
    (hbad : (update_fin_deflection rotApply s1 k d).2 = false) :
    update_fin_deflections rotApply s (pre ++ (k, d) :: post) = (s1, false) ∧
    (update_fin_deflection rotApply s1 k d).1 = s1 := by
  refine ⟨?_, update_fin_deflection_fail rotApply s1 k d hbad⟩
  induction pre generalizing s with
  | nil =>
    injection hpre with h1
    subst h1
    simp only [List.nil_append]
    have hexp : update_fin_deflections rotApply s ((k, d) :: post) =
        (if (update_fin_deflection rotApply s k d).2 = true then
          update_fin_deflections rotApply (update_fin_deflection rotApply s k d).1
            post
        else ((update_fin_deflection rotApply s k d).1, false)) := rfl
    rw [hexp, if_neg (by simp [hbad]),
      update_fin_deflection_fail rotApply s k d hbad]
  | cons c rest ih =>
    obtain ⟨ck, cd⟩ := c
    by_cases hr : (update_fin_deflection rotApply s ck cd).2 = true
    · have hpre2 : applyAllOk rotApply (update_fin_deflection rotApply s ck cd).1
          rest = some s1 := by
        have hexp : applyAllOk rotApply s ((ck, cd) :: rest) =
            (if (update_fin_deflection rotApply s ck cd).2 = true then
              applyAllOk rotApply (update_fin_deflection rotApply s ck cd).1 rest
            else none) := rfl
        rw [hexp, if_pos hr] at hpre
        exact hpre
      simp only [List.cons_append]
      have hexp2 : update_fin_deflections rotApply s
          ((ck, cd) :: (rest ++ (k, d) :: post)) =
          (if (update_fin_deflection rotApply s ck cd).2 = true then
            update_fin_deflections rotApply (update_fin_deflection rotApply s ck cd).1
              (rest ++ (k, d) :: post)
          else ((update_fin_deflection rotApply s ck cd).1, false)) := rfl
      rw [hexp2, if_pos hr]
      exact ih _ hpre2
    · exfalso
      have hexp : applyAllOk rotApply s ((ck, cd) :: rest) =
          (if (update_fin_deflection rotApply s ck cd).2 = true then
            applyAllOk rotApply (update_fin_deflection rotApply s ck cd).1 rest
          else none) := rfl
      rw [hexp, if_neg hr] at hpre
      exact Option.noConfusion hpre

/-- Witness for C10: a manager where fin 1 is fully configured and fin 2 is
unknown; updating `[fin 1 ↦ 3, fin 2 ↦ 4, fin 1 ↦ 1]` writes fin 1's
artifact, fails on fin 2, and never processes the trailing entry. -/
theorem c10_short_circuit_witness :
    applyAllOk (fun _ _ v => v)
        ⟨[(1, [⟨1, 0, 0⟩])], [(1, ⟨0, 0, 0⟩)], [(1, ⟨0, 0, 1⟩)], []⟩ [(1, 3)] =
      some ⟨[(1, [⟨1, 0, 0⟩])], [(1, ⟨0, 0, 0⟩)], [(1, ⟨0, 0, 1⟩)],
        [(1, [(⟨1, 0, 0⟩ : V3)].map fun v =>
          vadd ((fun (_ : V3) (_ : ℚ) (w : V3) => w) ⟨0, 0, 1⟩ 3
            (vsub v ⟨0, 0, 0⟩)) ⟨0, 0, 0⟩)]⟩ ∧
    (update_fin_deflection (fun _ _ v => v)
        ⟨[(1, [⟨1, 0, 0⟩])], [(1, ⟨0, 0, 0⟩)], [(1, ⟨0, 0, 1⟩)],
          [(1, [(⟨1, 0, 0⟩ : V3)].map fun v =>
            vadd ((fun (_ : V3) (_ : ℚ) (w : V3) => w) ⟨0, 0, 1⟩ 3
              (vsub v ⟨0, 0, 0⟩)) ⟨0, 0, 0⟩)]⟩ 2 4).2 = false ∧
    update_fin_deflections (fun _ _ v => v)
        ⟨[(1, [⟨1, 0, 0⟩])], [(1, ⟨0, 0, 0⟩)], [(1, ⟨0, 0, 1⟩)], []⟩
        ([(1, 3)] ++ (2, 4) :: [(1, 1)]) =
      (⟨[(1, [⟨1, 0, 0⟩])], [(1, ⟨0, 0, 0⟩)], [(1, ⟨0, 0, 1⟩)],
        [(1, [(⟨1, 0, 0⟩ : V3)].map fun v =>
          vadd ((fun (_ : V3) (_ : ℚ) (w : V3) => w) ⟨0, 0, 1⟩ 3
            (vsub v ⟨0, 0, 0⟩)) ⟨0, 0, 0⟩)]⟩, false) :=
  ⟨rfl, rfl,
   (c10_short_circuit (fun _ _ v => v)
     ⟨[(1, [⟨1, 0, 0⟩])], [(1, ⟨0, 0, 0⟩)], [(1, ⟨0, 0, 1⟩)], []⟩
     ⟨[(1, [⟨1, 0, 0⟩])], [(1, ⟨0, 0, 0⟩)], [(1, ⟨0, 0, 1⟩)],
       [(1, [(⟨1, 0, 0⟩ : V3)].map fun v =>
         vadd ((fun (_ : V3) (_ : ℚ) (w : V3) => w) ⟨0, 0, 1⟩ 3
           (vsub v ⟨0, 0, 0⟩)) ⟨0, 0, 0⟩)]⟩ [(1, 3)] [(1, 1)] 2 4 rfl rfl).1⟩

end RSim
